import Mathlib

/-!
Shallow embedding of the `satellite-data` serverless function of the
romania-earth-monitor repository (source: `src/unnamed/part_002`, mirrored in
`src/supabase/functions/satellite-data/index.ts`).

Modelling conventions:
* JS numbers are modelled by `Rat`.  Where the code can actually store `NaN`
  (the unguarded `parseFloat` results for `latitude`/`longitude`) the field is
  `Option Rat` with `none` standing for `NaN`; fields the code guards with
  `|| 0` are plain `Rat`.
* External effects (environment variables, `fetch` outcomes, `Math.random()`
  draws, the current date) are passed in explicitly as parameters.
* String splitting/trimming is implemented structurally over `List Char` so
  that all definitions evaluate inside the kernel.
-/

set_option maxRecDepth 100000

namespace SatelliteData

/-- The four fire-risk levels produced by `calculateFireRisk`. -/
inductive RiskLevel
  | low
  | medium
  | high
  | critical
deriving DecidableEq

/-- Vegetation-stress categories of the GEE analysis. -/
inductive Stress
  | low
  | moderate
  | high
deriving DecidableEq

/-- Vegetation-health categories of `calculateHazardIndicators`. -/
inductive Health
  | poor
  | moderate
  | good
deriving DecidableEq

/-- Data-availability categories of `calculateHazardIndicators`. -/
inductive Avail
  | limited
  | moderate
  | good
deriving DecidableEq

/-- Three-level risk used for `floodRisk`. -/
inductive Risk3
  | low
  | medium
  | high
deriving DecidableEq

/-! JS primitive operations used by the function. -/

/-- JS `Array.prototype.indexOf`: index of the first occurrence, `-1` if absent. -/
def jsIndexOf (xs : List String) (x : String) : Int :=
  match xs with
  | [] => -1
  | y :: ys =>
    if y = x then 0
    else
      let r := jsIndexOf ys x
      if r = -1 then -1 else r + 1

/-- JS array indexing `values[i]`: `undefined` (modelled `none`) when out of
range, including the `i = -1` produced by a failed `indexOf`. -/
def jsAt (values : List String) (i : Int) : Option String :=
  if i < 0 then none else values[i.toNat]?

/-- JS `x || d` for strings: `undefined` and the empty string are falsy. -/
def jsOrStr (x : Option String) (d : String) : String :=
  match x with
  | none => d
  | some "" => d
  | some s => s

/-- JS `x || d` for an optional number (`daysBack`): `undefined` and `0` are
falsy and give the default. -/
def jsOrInt (x : Option Int) (d : Int) : Int :=
  match x with
  | none => d
  | some 0 => d
  | some n => n

/-- Splitting a character list at a separator, JS `String.prototype.split`
semantics: the empty input gives one empty group, separators at the ends give
empty groups. -/
def splitOnChar (sep : Char) : List Char → List (List Char)
  | [] => [[]]
  | c :: cs =>
    let r := splitOnChar sep cs
    if c = sep then [] :: r
    else
      match r with
      | [] => [[c]]
      | g :: gs => (c :: g) :: gs

/-- Whitespace trimming on both ends (JS `String.prototype.trim`). -/
def trimChars (cs : List Char) : List Char :=
  ((cs.dropWhile Char.isWhitespace).reverse.dropWhile Char.isWhitespace).reverse

/-- JS `s.trim()`. -/
def jsTrim (s : String) : String :=
  String.mk (trimChars s.toList)

/-- JS `s.split(sep)` for a one-character separator. -/
def jsSplit (sep : Char) (s : String) : List String :=
  (splitOnChar sep s.toList).map String.mk

/-- Value of a digit list read in base 10. -/
def decDigits (cs : List Char) : Nat :=
  cs.foldl (fun a c => a * 10 + (c.toNat - 48)) 0

/-- JS `parseFloat` on decimal notation: skips leading whitespace, reads an
optional sign and the longest `digits[.digits]` prefix; `none` models `NaN`
(no digits at all). -/
def parseFloat (s : String) : Option Rat :=
  let cs := s.toList.dropWhile Char.isWhitespace
  let sgn : Rat × List Char :=
    match cs with
    | '-' :: rest => (-1, rest)
    | '+' :: rest => (1, rest)
    | _ => (1, cs)
  let intPart := sgn.2.takeWhile Char.isDigit
  let rest1 := sgn.2.dropWhile Char.isDigit
  let fracPart :=
    match rest1 with
    | '.' :: r => r.takeWhile Char.isDigit
    | _ => []
  if intPart.isEmpty && fracPart.isEmpty then none
  else
    some (sgn.1 * ((decDigits intPart : Rat) +
      (decDigits fracPart : Rat) / ((10 : Rat) ^ fracPart.length)))

/-- JS `x < y` where `x` may be `NaN` (`none`): any comparison with `NaN` is
false. -/
def jsLtO (x : Option Rat) (y : Rat) : Bool :=
  match x with
  | none => false
  | some a => decide (a < y)

/-- JS `x > y` where `x` may be `NaN`. -/
def jsGtO (x : Option Rat) (y : Rat) : Bool :=
  match x with
  | none => false
  | some a => decide (y < a)

/-- JS `Math.max(...xs)` on a list known to be non-empty at every call site
(`Math.max()` of an empty spread would be `-Infinity`; callers guard against
the empty list first, so the `[]` case below is unreachable). -/
def mathMax : List Rat → Rat
  | [] => 0
  | x :: xs => xs.foldl max x

/-- JS `Math.round`: half-up toward positive infinity. -/
def jsRound (x : Rat) : Int := ⌊x + 1/2⌋

/-- `Math.round(x * 1000) / 1000`. -/
def round3 (x : Rat) : Rat := (jsRound (x * 1000) : Rat) / 1000

/-- `Math.round(x * 10) / 10`. -/
def round1 (x : Rat) : Rat := (jsRound (x * 10) : Rat) / 10

/-! Regions table. -/

/-- Bounding box `[min_lon, min_lat, max_lon, max_lat]`. -/
structure BBox where
  minLon : Rat
  minLat : Rat
  maxLon : Rat
  maxLat : Rat
deriving DecidableEq

/-- Entry of the `REGIONS` record: `{ bbox, name }`. -/
structure Region where
  bbox : BBox
  name : String
deriving DecidableEq

/-- The hardcoded `REGIONS` table, in declaration order (JS object property
order, which `Object.entries` preserves). -/
def REGIONS : List (String × Region) :=
  [ ("fagaras", { bbox := ⟨24.5, 45.5, 25.5, 46.0⟩, name := "Făgăraș" })
  , ("iasi", { bbox := ⟨27.5, 47.0, 27.8, 47.3⟩, name := "Iași" })
  , ("timisoara", { bbox := ⟨21.1, 45.6, 21.4, 45.9⟩, name := "Timișoara" })
  , ("craiova", { bbox := ⟨23.7, 44.2, 24.0, 44.5⟩, name := "Craiova" })
  , ("constanta", { bbox := ⟨28.5, 44.1, 28.8, 44.4⟩, name := "Constanța" })
  , ("baia_mare", { bbox := ⟨23.4, 47.5, 23.7, 47.8⟩, name := "Baia Mare" })
  , ("bucuresti", { bbox := ⟨25.9, 44.3, 26.2, 44.6⟩, name := "București" })
  , ("cluj", { bbox := ⟨23.5, 46.7, 23.8, 47.0⟩, name := "Cluj" }) ]

/-- The own-property portion of the JS lookup `REGIONS[regionId]`: the region
for one of the 8 declared ids, `none` otherwise.  The full bracket lookup also
walks the prototype chain; `regionsGet` below models that. -/
def findRegion (regionId : String) : Option Region :=
  (REGIONS.find? (fun p => p.1 == regionId)).map (fun p => p.2)

/-- Property names every object literal inherits from `Object.prototype`.
Bracket lookup on `REGIONS` with one of these names returns the inherited
member (a function, or the prototype object for `__proto__`), which is
truthy, so `if (!region)` does not fire for them. -/
def objectProtoKeys : List String :=
  ["constructor", "hasOwnProperty", "isPrototypeOf", "propertyIsEnumerable",
   "toLocaleString", "toString", "valueOf",
   "__defineGetter__", "__defineSetter__", "__lookupGetter__", "__lookupSetter__",
   "__proto__"]

/-- Result of the JS bracket lookup `REGIONS[regionId]`: an own region entry,
a truthy member inherited from `Object.prototype` (whose `.bbox` is
`undefined`), or `undefined` (falsy). -/
inductive RegionLookup
  | region (r : Region)
  | protoMember
  | absent

/-- The JS lookup `REGIONS[regionId]` including the prototype chain: own
properties shadow inherited ones; names absent from both give `undefined`. -/
def regionsGet (regionId : String) : RegionLookup :=
  match findRegion regionId with
  | some r => .region r
  | none => if regionId ∈ objectProtoKeys then .protoMember else .absent

/-- Message of the TypeError raised by the destructuring
`const [minLon, minLat, maxLon, maxLat] = bbox` in `getGEEAnalysis` /
`getFireHotspots` when `region.bbox` is `undefined` (the inherited-member
case); the dispatcher's catch serializes it into a 500 body. -/
def bboxDestructureMsg : String :=
  "undefined is not iterable (cannot read property Symbol(Symbol.iterator))"

/-! NASA FIRMS fire hotspots. -/

/-- The TS union `string | number` used for a hotspot's confidence. -/
inductive Confidence
  | str (s : String)
  | num (q : Rat)
deriving DecidableEq

/-- A parsed FIRMS hotspot record.  `latitude`/`longitude` are stored exactly
as `parseFloat` produced them (possibly `NaN`, modelled `none`); the code
protects `brightness` and `frp` with `|| 0`, so those are plain `Rat`. -/
structure FireHotspot where
  latitude : Option Rat
  longitude : Option Rat
  brightness : Rat
  confidence : Confidence
  acq_date : String
  acq_time : String
  satellite : String
  frp : Rat
deriving DecidableEq

/-- Outcome of a `fetch` as observed by the code: a thrown error, a non-ok
response, or an ok response with a text body. -/
inductive FetchOutcome
  | threw
  | notOk (status : Nat)
  | ok (body : String)

/-- Column indices computed from the CSV header row (`headers.indexOf(...)`,
with the `bright_ti4` / `brightness` alternative for the brightness column). -/
structure CsvColumns where
  latIdx : Int
  lonIdx : Int
  brightIdx : Int
  confIdx : Int
  dateIdx : Int
  timeIdx : Int
  satIdx : Int
  frpIdx : Int

/-- Header-to-index computation of `getFireHotspots`. -/
def hotspotColumns (headers : List String) : CsvColumns :=
  { latIdx := jsIndexOf headers "latitude"
    lonIdx := jsIndexOf headers "longitude"
    brightIdx :=
      if jsIndexOf headers "bright_ti4" ≠ -1 then jsIndexOf headers "bright_ti4"
      else jsIndexOf headers "brightness"
    confIdx := jsIndexOf headers "confidence"
    dateIdx := jsIndexOf headers "acq_date"
    timeIdx := jsIndexOf headers "acq_time"
    satIdx := jsIndexOf headers "satellite"
    frpIdx := jsIndexOf headers "frp" }

/-- The record pushed for one CSV data row (the body of the `for` loop of
`getFireHotspots`, after the bbox filter). -/
def parseHotspotRow (cols : CsvColumns) (values : List String) : FireHotspot :=
  { latitude := (jsAt values cols.latIdx).bind parseFloat
    longitude := (jsAt values cols.lonIdx).bind parseFloat
    brightness := ((jsAt values cols.brightIdx).bind parseFloat).getD 0
    confidence := .str (jsOrStr (jsAt values cols.confIdx) "unknown")
    acq_date := (jsAt values cols.dateIdx).getD ""
    acq_time := (jsAt values cols.timeIdx).getD ""
    satellite := jsOrStr (jsAt values cols.satIdx) "VIIRS"
    frp := ((jsAt values cols.frpIdx).bind parseFloat).getD 0 }

/-- The country-wide-data bbox filter (`continue` condition): any comparison
with a `NaN` coordinate is false, so such rows are kept. -/
def outsideExpandedBBox (bbox : BBox) (lat lon : Option Rat) : Bool :=
  jsLtO lon (bbox.minLon - 0.5) || jsGtO lon (bbox.maxLon + 0.5) ||
  jsLtO lat (bbox.minLat - 0.5) || jsGtO lat (bbox.maxLat + 0.5)

/-- `getFireHotspots`, given the observed FIRMS fetch outcome.  `hasFirmsKey`
is whether `NASA_FIRMS_API_KEY` is configured (it selects the authenticated
area query; without it the country-wide rows are filtered by bbox). -/
def getFireHotspots (hasFirmsKey : Bool) (bbox : BBox) (outcome : FetchOutcome) :
    List FireHotspot :=
  match outcome with
  | .threw => []
  | .notOk _ => []
  | .ok csvText =>
    let lines := jsSplit '\n' (jsTrim csvText)
    if lines.length < 2 then []
    else
      let cols := hotspotColumns (jsSplit ',' (lines.getD 0 ""))
      (lines.drop 1).filterMap (fun line =>
        let values := jsSplit ',' line
        let lat := (jsAt values cols.latIdx).bind parseFloat
        let lon := (jsAt values cols.lonIdx).bind parseFloat
        if !hasFirmsKey && outsideExpandedBBox bbox lat lon then none
        else some (parseHotspotRow cols values))

/-- Result record of `calculateFireRisk`. -/
structure FireRiskResult where
  fireRisk : RiskLevel
  activeHotspots : Nat
  highConfidenceCount : Nat
  maxBrightness : Rat
  totalFRP : Rat
deriving DecidableEq

/-- The high-confidence predicate of `calculateFireRisk`:
`h.confidence === 'high' || h.confidence === 'h' ||
(typeof h.confidence === 'number' && h.confidence >= 80)`. -/
def isHighConfidence : Confidence → Bool
  | .str s => s == "high" || s == "h"
  | .num q => decide (q ≥ 80)

/-- `calculateFireRisk`.  `h.frp || 0` in the FRP sum only replaces a falsy
number (`NaN` or `0`) by `0`; on `Rat`-valued `frp` it is the identity. -/
def calculateFireRisk (hotspots : List FireHotspot) : FireRiskResult :=
  if hotspots.length = 0 then
    { fireRisk := .low, activeHotspots := 0, highConfidenceCount := 0,
      maxBrightness := 0, totalFRP := 0 }
  else
    let highConfidence := hotspots.filter (fun h => isHighConfidence h.confidence)
    let maxBrightness := mathMax (hotspots.map (fun h => h.brightness))
    let totalFRP : Rat := (hotspots.map (fun h => h.frp)).sum
    let fireRisk : RiskLevel :=
      if hotspots.length ≥ 10 ∨ highConfidence.length ≥ 5 ∨ totalFRP > 100 then .critical
      else if hotspots.length ≥ 5 ∨ highConfidence.length ≥ 2 ∨ totalFRP > 50 then .high
      else if hotspots.length ≥ 1 then .medium
      else .low
    { fireRisk := fireRisk, activeHotspots := hotspots.length,
      highConfidenceCount := highConfidence.length,
      maxBrightness := maxBrightness, totalFRP := totalFRP }

/-! Google Earth Engine integration. -/

/-- State of the `GEE_SERVICE_ACCOUNT_KEY` environment variable: absent,
present but not valid JSON (`JSON.parse` throws), or a parsed key. -/
inductive GEEKeyConfig
  | missing
  | malformed
  | valid (clientEmail privateKey projectId : String)

/-- `getGEECredentials`: `null` when the variable is absent or `JSON.parse`
throws, the parsed fields otherwise. -/
def getGEECredentials : GEEKeyConfig → Option (String × String × String)
  | .missing => none
  | .malformed => none
  | .valid e k p => some (e, k, p)

/-- Observed outcome of the token exchange: the whole `try` block threw
(e.g. `importPrivateKey` rejected a malformed PEM, or `fetch` failed), the
token endpoint answered non-2xx, or it answered with an access token. -/
inductive TokenFetch
  | threw
  | notOk (status : Nat)
  | ok (accessToken : String)

/-- `getGEEAccessToken`: `null` unless credentials parse and the token
endpoint answers ok. -/
def getGEEAccessToken (cfg : GEEKeyConfig) (tf : TokenFetch) : Option String :=
  match getGEECredentials cfg with
  | none => none
  | some _ =>
    match tf with
    | .threw => none
    | .notOk _ => none
    | .ok tok => some tok

/-- Observed outcome of the asset-listing connectivity probe. -/
inductive AssetsFetch
  | threw
  | resp (status : Nat)

/-- The `Response.ok` predicate: status in the 2xx range. -/
def respOk (status : Nat) : Bool := 200 ≤ status && status < 300

/-- `queryGEE`: verifies connectivity; returns `{connected, message}`
(`none` models the `return null` on the vanished-credentials path). -/
def queryGEE (cfg : GEEKeyConfig) (tf : TokenFetch) (af : AssetsFetch) :
    Option (Bool × String) :=
  match getGEEAccessToken cfg tf with
  | none => some (false, "No GEE credentials")
  | some _ =>
    match getGEECredentials cfg with
    | none => none
    | some _ =>
      match af with
      | .threw => some (false, "GEE connection failed")
      | .resp status =>
        if respOk status || status == 404 then
          some (true, "GEE authentication successful")
        else
          some (false, "GEE error: " ++ toString status)

/-- The `GEEAnalysis` record as produced by `getGEEAnalysis` in the shipped
variant (that code path never writes `null` into the numeric fields; the
constant `source: 'gee'` field is kept). -/
structure GEEAnalysis where
  ndviMean : Rat
  ndviMin : Rat
  ndviMax : Rat
  floodPercentage : Rat
  waterPercentage : Rat
  vegetationStress : Stress
  dataDate : String
  src : String
  geeConnected : Bool
deriving DecidableEq

/-- `getGEEAnalysis`.  Impure inputs are explicit: `month` is
`endDate.getMonth()` (0-based; June = 5, January = 0), `endStr` the
`toISOString` date prefix, and `rNdvi`/`rFlood`/`rWater` the three
`Math.random()` draws in order.  `daysBack` only shifts the query start date
passed to `queryGEE`; it does not enter the numbers. -/
def getGEEAnalysis (bbox : BBox) (daysBack : Int) (cfg : GEEKeyConfig)
    (tf : TokenFetch) (af : AssetsFetch) (month : Nat) (endStr : String)
    (rNdvi rFlood rWater : Rat) : GEEAnalysis :=
  let geeResult := queryGEE cfg tf af
  let centerLat := (bbox.minLat + bbox.maxLat) / 2
  let ndviMean : Rat :=
    if 5 ≤ month ∧ month ≤ 8 then 0.55 + rNdvi * 0.15
    else if (3 ≤ month ∧ month ≤ 4) ∨ (9 ≤ month ∧ month ≤ 10) then 0.40 + rNdvi * 0.15
    else 0.15 + rNdvi * 0.15
  let ndviMean := if centerLat > 46.5 then ndviMean - 0.05 else ndviMean
  let ndviMin := max (-1) (ndviMean - 0.2)
  let ndviMax := min 1 (ndviMean + 0.2)
  let floodPercentage : Rat := 2 + rFlood * 3
  let floodPercentage := if 3 ≤ month ∧ month ≤ 5 then floodPercentage + 3 else floodPercentage
  let waterPercentage : Rat := 1.5 + rWater * 2
  let vegetationStress : Stress :=
    if ndviMean > 0.5 then .low
    else if ndviMean > 0.3 then .moderate
    else .high
  { ndviMean := round3 ndviMean
    ndviMin := round3 ndviMin
    ndviMax := round3 ndviMax
    floodPercentage := round1 floodPercentage
    waterPercentage := round1 waterPercentage
    vegetationStress := vegetationStress
    dataDate := endStr
    src := "gee"
    geeConnected := ((geeResult.map Prod.fst).getD false) }

/-! Hazard indicators. -/

/-- The `fireData` sub-record of the indicators. -/
structure FireData where
  activeHotspots : Nat
  highConfidenceCount : Nat
  maxBrightness : Rat
  totalFRP : Rat
deriving DecidableEq

/-- Result record of `calculateHazardIndicators`. -/
structure HazardIndicators where
  floodRisk : Risk3
  vegetationHealth : Health
  fireRisk : RiskLevel
  dataAvailability : Avail
  lastUpdate : Option String
  radarCoverage : Bool
  opticalCoverage : Bool
  fireData : FireData
deriving DecidableEq

/-- `calculateHazardIndicators`.  `if (geeAnalysis?.ndviMean)` is JS
truthiness: it requires a non-null analysis and a non-zero mean; likewise
`geeAnalysis?.dataDate || null` turns an empty date string into `null`. -/
def calculateHazardIndicators (geeAnalysis : Option GEEAnalysis)
    (fireHotspots : List FireHotspot) : HazardIndicators :=
  let hasGEE :=
    match geeAnalysis with
    | some g => g.geeConnected
    | none => false
  let dataAvailability : Avail := if hasGEE then .good else .limited
  let vegetationHealth : Health :=
    match geeAnalysis with
    | some g =>
      if g.ndviMean ≠ 0 then
        if g.ndviMean > 0.5 then .good
        else if g.ndviMean < 0.3 then .poor
        else .moderate
      else .moderate
    | none => .moderate
  let floodRisk : Risk3 :=
    match geeAnalysis with
    | some g =>
      if g.floodPercentage < 3 then .low
      else if g.floodPercentage > 7 then .high
      else .medium
    | none => .medium
  let fireAnalysis := calculateFireRisk fireHotspots
  { floodRisk := floodRisk
    vegetationHealth := vegetationHealth
    fireRisk := fireAnalysis.fireRisk
    dataAvailability := dataAvailability
    lastUpdate :=
      match geeAnalysis with
      | some g => if g.dataDate = "" then none else some g.dataDate
      | none => none
    radarCoverage := false
    opticalCoverage := hasGEE
    fireData :=
      { activeHotspots := fireAnalysis.activeHotspots
        highConfidenceCount := fireAnalysis.highConfidenceCount
        maxBrightness := fireAnalysis.maxBrightness
        totalFRP := fireAnalysis.totalFRP } }

/-! Request handler. -/

/-- The request fields the handler reads (from GET query parameters or the
POST JSON body). -/
structure ReqParams where
  action : Option String
  regionId : Option String
  daysBack : Option Int
deriving DecidableEq

/-- The external world of one invocation: credential/fetch outcomes, the
current date, the random draws, and the FIRMS outcome as a function of the
day count the fetch is invoked with. -/
structure Env where
  geeCfg : GEEKeyConfig
  tokenFetch : TokenFetch
  assetsFetch : AssetsFetch
  month : Nat
  endStr : String
  rNdvi : Rat
  rFlood : Rat
  rWater : Rat
  hasFirmsKey : Bool
  firms : Int → FetchOutcome

/-- The day count the handler passes to `getFireHotspots`:
`Math.min(daysBack || 3, 10)`. -/
def firmsDaysOf (daysBack : Option Int) : Int := min (jsOrInt daysBack 3) 10

/-- The day count the handler passes to `getGEEAnalysis`: `daysBack || 30`. -/
def geeDaysOf (daysBack : Option Int) : Int := jsOrInt daysBack 30

/-- Structured response bodies of the four actions plus the JSON error body. -/
inductive RespBody
  | error (msg : String)
  | regionsList (regions : List (String × String × BBox))
  | analyze (regionId regionName : String) (bbox : BBox)
      (indicators : HazardIndicators) (geeAnalysis : GEEAnalysis)
      (fireHotspots : List FireHotspot)
  | gee (regionId regionName : String) (bbox : BBox) (geeAnalysis : GEEAnalysis)
  | fires (regionId regionName : String) (bbox : BBox)
      (fireAnalysis : FireRiskResult) (hotspots : List FireHotspot)
deriving DecidableEq

/-- An HTTP response: status code (`Response` defaults to 200) and body. -/
structure HttpResponse where
  status : Nat
  body : RespBody
deriving DecidableEq

/-- The `getGEEAnalysis` call as the handler makes it. -/
def envGEEAnalysis (env : Env) (bbox : BBox) (daysBack : Int) : GEEAnalysis :=
  getGEEAnalysis bbox daysBack env.geeCfg env.tokenFetch env.assetsFetch
    env.month env.endStr env.rNdvi env.rFlood env.rWater

/-- The `getFireHotspots` call as the handler makes it. -/
def envFireHotspots (env : Env) (bbox : BBox) (daysBack : Int) : List FireHotspot :=
  getFireHotspots env.hasFirmsKey bbox (env.firms daysBack)

/-- The `serve` dispatcher, after request parsing (GET/POST and the CORS
preflight are upstream of the modelled logic).  `Except.error msg` models a
request whose handling threw with message `msg` (e.g. `req.json()` on a
malformed body), which the `catch` turns into a 500.  The `.protoMember`
branches model the source's behavior for an inherited `Object.prototype`
name: `if (!region)` does not fire, `region.bbox` is `undefined`, the
callee's bbox destructuring throws, and the catch yields a 500. -/
def handleRequest (env : Env) (parsed : Except String ReqParams) : HttpResponse :=
  match parsed with
  | .error msg => { status := 500, body := .error msg }
  | .ok p =>
    if p.action = some "list-regions" then
      { status := 200,
        body := .regionsList (REGIONS.map (fun pr => (pr.1, pr.2.name, pr.2.bbox))) }
    else if p.action = some "analyze" then
      match p.regionId with
      | none => { status := 400, body := .error "regionId is required" }
      | some rid =>
        match regionsGet rid with
        | .absent => { status := 400, body := .error "Unknown region" }
        | .protoMember => { status := 500, body := .error bboxDestructureMsg }
        | .region region =>
          let geeAnalysis := envGEEAnalysis env region.bbox (geeDaysOf p.daysBack)
          let fireHotspots := envFireHotspots env region.bbox (firmsDaysOf p.daysBack)
          let indicators := calculateHazardIndicators (some geeAnalysis) fireHotspots
          { status := 200,
            body := .analyze rid region.name region.bbox indicators geeAnalysis
              (fireHotspots.take 20) }
    else if p.action = some "gee" then
      match p.regionId with
      | none => { status := 400, body := .error "regionId is required" }
      | some rid =>
        match regionsGet rid with
        | .absent => { status := 400, body := .error "Unknown region" }
        | .protoMember => { status := 500, body := .error bboxDestructureMsg }
        | .region region =>
          { status := 200,
            body := .gee rid region.name region.bbox
              (envGEEAnalysis env region.bbox (geeDaysOf p.daysBack)) }
    else if p.action = some "fires" then
      match p.regionId with
      | none => { status := 400, body := .error "regionId is required" }
      | some rid =>
        match regionsGet rid with
        | .absent => { status := 400, body := .error "Unknown region" }
        | .protoMember => { status := 500, body := .error bboxDestructureMsg }
        | .region region =>
          let fireHotspots := envFireHotspots env region.bbox (firmsDaysOf p.daysBack)
          let fireAnalysis := calculateFireRisk fireHotspots
          { status := 200,
            body := .fires rid region.name region.bbox fireAnalysis fireHotspots }
    else { status := 400, body := .error "Invalid action" }

/-- A concrete environment for witnesses: no GEE credentials, FIRMS fetch
throwing. -/
def env0 : Env :=
  { geeCfg := .missing
    tokenFetch := .threw
    assetsFetch := .threw
    month := 5
    endStr := "2025-06-15"
    rNdvi := 0
    rFlood := 0
    rWater := 0
    hasFirmsKey := true
    firms := fun _ => .threw }

/-- Association-list view of a CSV row: the value in the column of the first
header cell equal to `name`.  Used to state that row parsing depends on the
header content, not on column positions. -/
def lookupPair : List (String × String) → String → Option String
  | [], _ => none
  | (k, v) :: t, name => if k = name then some v else lookupPair t name

/-- A FIRMS CSV body whose single data row has an unparseable latitude. -/
def badLatCsv : String :=
  "latitude,longitude,bright_ti4,confidence,acq_date,acq_time,satellite,frp\nxx,25.0,300.0,high,2025-01-01,0130,N,5.5"

/-- The season-keyed base NDVI mean of `getGEEAnalysis` (its first
`ndviMean` binding), with `r` the `Math.random()` draw. -/
def ndviSeasonBase (month : Nat) (r : Rat) : Rat :=
  if 5 ≤ month ∧ month ≤ 8 then 0.55 + r * 0.15
  else if (3 ≤ month ∧ month ≤ 4) ∨ (9 ≤ month ∧ month ≤ 10) then 0.40 + r * 0.15
  else 0.15 + r * 0.15

/-- The NDVI mean after the mountain adjustment (the second `ndviMean`
binding of `getGEEAnalysis`), before rounding. -/
def ndviRawMean (bbox : BBox) (month : Nat) (r : Rat) : Rat :=
  if (bbox.minLat + bbox.maxLat) / 2 > 46.5 then ndviSeasonBase month r - 0.05
  else ndviSeasonBase month r

/-- A concrete hotspot record used to exhibit a response with more active
hotspots than returned entries. -/
def sampleHotspot : FireHotspot :=
  { latitude := some 45.7
    longitude := some 25.1
    brightness := 300
    confidence := .str "high"
    acq_date := "2025-06-01"
    acq_time := "0130"
    satellite := "N"
    frp := 1 }

/-! Helper lemmas about the dispatcher. -/

theorem findRegion_eq_none (rid : String)
    (h : rid ∉ ["fagaras", "iasi", "timisoara", "craiova", "constanta",
                "baia_mare", "bucuresti", "cluj"]) :
    findRegion rid = none := by
  have hf : REGIONS.find? (fun p => p.1 == rid) = none := by
    cases hf : REGIONS.find? (fun p => p.1 == rid) with
    | none => rfl
    | some pr =>
      exfalso
      have hmem := List.mem_of_find?_eq_some hf
      have hpred : pr.1 = rid := by simpa using List.find?_some hf
      apply h
      rw [← hpred]
      simp only [REGIONS, List.mem_cons, List.not_mem_nil, or_false] at hmem
      rcases hmem with rfl | rfl | rfl | rfl | rfl | rfl | rfl | rfl <;> simp
  simp [findRegion, hf]

theorem handleRequest_analyze_eq (env : Env) (p : ReqParams) (rid : String)
    (region : Region) (ha : p.action = some "analyze") (hr : p.regionId = some rid)
    (hf : findRegion rid = some region) :
    handleRequest env (.ok p) =
      { status := 200,
        body := .analyze rid region.name region.bbox
          (calculateHazardIndicators
            (some (envGEEAnalysis env region.bbox (geeDaysOf p.daysBack)))
            (envFireHotspots env region.bbox (firmsDaysOf p.daysBack)))
          (envGEEAnalysis env region.bbox (geeDaysOf p.daysBack))
          ((envFireHotspots env region.bbox (firmsDaysOf p.daysBack)).take 20) } := by
  simp [handleRequest, regionsGet, ha, hr, hf]

theorem handleRequest_fires_eq (env : Env) (p : ReqParams) (rid : String)
    (region : Region) (ha : p.action = some "fires") (hr : p.regionId = some rid)
    (hf : findRegion rid = some region) :
    handleRequest env (.ok p) =
      { status := 200,
        body := .fires rid region.name region.bbox
          (calculateFireRisk (envFireHotspots env region.bbox (firmsDaysOf p.daysBack)))
          (envFireHotspots env region.bbox (firmsDaysOf p.daysBack)) } := by
  simp [handleRequest, regionsGet, ha, hr, hf]

theorem handleRequest_unknown_region (env : Env) (p : ReqParams) (rid : String)
    (ha : p.action = some "analyze" ∨ p.action = some "gee" ∨ p.action = some "fires")
    (hr : p.regionId = some rid) (hf : findRegion rid = none)
    (hp : rid ∉ objectProtoKeys) :
    handleRequest env (.ok p) = { status := 400, body := .error "Unknown region" } := by
  have hg : regionsGet rid = .absent := by simp [regionsGet, hf, hp]
  rcases ha with ha | ha | ha <;> simp [handleRequest, ha, hr, hg]

theorem handleRequest_proto_500 (env : Env) (p : ReqParams) (rid : String)
    (ha : p.action = some "analyze" ∨ p.action = some "gee" ∨ p.action = some "fires")
    (hr : p.regionId = some rid) (hf : findRegion rid = none)
    (hp : rid ∈ objectProtoKeys) :
    handleRequest env (.ok p) = { status := 500, body := .error bboxDestructureMsg } := by
  have hg : regionsGet rid = .protoMember := by simp [regionsGet, hf, hp]
  rcases ha with ha | ha | ha <;> simp [handleRequest, ha, hr, hg]

/-! Claim theorems. -/

/-- C1: `calculateFireRisk` returns `critical` exactly when the hotspot count
is ≥ 10, the high-confidence count is ≥ 5, or the summed FRP exceeds 100;
otherwise `high` exactly when the count is ≥ 5, the high-confidence count is
≥ 2, or the summed FRP exceeds 50; otherwise `medium` exactly when the count
is ≥ 1; and `low` exactly for the empty list, whose result has all four
numeric statistics equal to 0. -/
theorem calculateFireRisk_thresholds (hs : List FireHotspot) :
    ((calculateFireRisk hs).fireRisk = RiskLevel.critical ↔
      (hs.length ≥ 10 ∨ (hs.filter (fun h => isHighConfidence h.confidence)).length ≥ 5 ∨
        (hs.map (fun h => h.frp)).sum > 100))
  ∧ ((calculateFireRisk hs).fireRisk = RiskLevel.high ↔
      (¬(hs.length ≥ 10 ∨ (hs.filter (fun h => isHighConfidence h.confidence)).length ≥ 5 ∨
          (hs.map (fun h => h.frp)).sum > 100) ∧
        (hs.length ≥ 5 ∨ (hs.filter (fun h => isHighConfidence h.confidence)).length ≥ 2 ∨
          (hs.map (fun h => h.frp)).sum > 50)))
  ∧ ((calculateFireRisk hs).fireRisk = RiskLevel.medium ↔
      (¬(hs.length ≥ 10 ∨ (hs.filter (fun h => isHighConfidence h.confidence)).length ≥ 5 ∨
          (hs.map (fun h => h.frp)).sum > 100) ∧
       ¬(hs.length ≥ 5 ∨ (hs.filter (fun h => isHighConfidence h.confidence)).length ≥ 2 ∨
          (hs.map (fun h => h.frp)).sum > 50) ∧
        hs.length ≥ 1))
  ∧ ((calculateFireRisk hs).fireRisk = RiskLevel.low ↔ hs = [])
  ∧ calculateFireRisk [] =
      { fireRisk := .low, activeHotspots := 0, highConfidenceCount := 0,
        maxBrightness := 0, totalFRP := 0 } := by
  rcases hs with _ | ⟨h, t⟩
  · refine ⟨?_, ?_, ?_, ?_, rfl⟩ <;>
      simp [calculateFireRisk]
  · have hne : (h :: t).length ≠ 0 := by simp
    simp only [calculateFireRisk, if_neg hne]
    by_cases c1 : (h :: t).length ≥ 10 ∨
        ((h :: t).filter (fun h => isHighConfidence h.confidence)).length ≥ 5 ∨
        ((h :: t).map (fun h => h.frp)).sum > 100
    · simp only [if_pos c1]
      refine ⟨by simpa using c1, ?_, ?_, ?_, rfl⟩ <;> simp_all
    · simp only [if_neg c1]
      by_cases c2 : (h :: t).length ≥ 5 ∨
          ((h :: t).filter (fun h => isHighConfidence h.confidence)).length ≥ 2 ∨
          ((h :: t).map (fun h => h.frp)).sum > 50
      · simp only [if_pos c2]
        refine ⟨?_, ?_, ?_, ?_, rfl⟩ <;> simp_all
      · simp only [if_neg c2]
        have c3 : (h :: t).length ≥ 1 := by simp
        simp only [if_pos c3]
        refine ⟨?_, ?_, ?_, ?_, rfl⟩ <;> simp_all

/-- C4 amended: the region table is a fixed hardcoded set of exactly 8
regions and `list-regions` returns all 8 ids with their exact names and
bounding boxes; for every regionId that is neither a known id nor a property
name inherited from `Object.prototype`, the `analyze`, `gee` and `fires`
actions return 400 with an error body; for an inherited name (`toString`,
`constructor`, ...) the truthy inherited member bypasses the `!region` check
and the undefined-bbox destructuring makes those actions return 500. -/
theorem regions_table (env : Env) (d : Option Int) (rid a : String)
    (ha : a = "analyze" ∨ a = "gee" ∨ a = "fires")
    (hrid : rid ∉ ["fagaras", "iasi", "timisoara", "craiova", "constanta",
                   "baia_mare", "bucuresti", "cluj"])
    (hproto : rid ∉ objectProtoKeys) :
    REGIONS.length = 8
  ∧ (∀ (env' : Env) (rid' : Option String) (d' : Option Int),
      handleRequest env' (.ok ⟨some "list-regions", rid', d'⟩) =
        { status := 200,
          body := .regionsList
            [ ("fagaras", "Făgăraș", ⟨24.5, 45.5, 25.5, 46.0⟩)
            , ("iasi", "Iași", ⟨27.5, 47.0, 27.8, 47.3⟩)
            , ("timisoara", "Timișoara", ⟨21.1, 45.6, 21.4, 45.9⟩)
            , ("craiova", "Craiova", ⟨23.7, 44.2, 24.0, 44.5⟩)
            , ("constanta", "Constanța", ⟨28.5, 44.1, 28.8, 44.4⟩)
            , ("baia_mare", "Baia Mare", ⟨23.4, 47.5, 23.7, 47.8⟩)
            , ("bucuresti", "București", ⟨25.9, 44.3, 26.2, 44.6⟩)
            , ("cluj", "Cluj", ⟨23.5, 46.7, 23.8, 47.0⟩) ] })
  ∧ handleRequest env (.ok ⟨some a, some rid, d⟩) =
      { status := 400, body := .error "Unknown region" }
  ∧ (∀ (env' : Env) (d' : Option Int) (a' rid' : String),
      (a' = "analyze" ∨ a' = "gee" ∨ a' = "fires") → rid' ∈ objectProtoKeys →
      handleRequest env' (.ok ⟨some a', some rid', d'⟩) =
        { status := 500, body := .error bboxDestructureMsg }) := by
  refine ⟨rfl, fun env' rid' d' => by simp [handleRequest, REGIONS], ?_, ?_⟩
  · exact handleRequest_unknown_region env ⟨some a, some rid, d⟩ rid
      (by rcases ha with rfl | rfl | rfl <;> simp) rfl
      (findRegion_eq_none rid hrid) hproto
  · intro env' d' a' rid' ha' hp'
    have hnone : findRegion rid' = none := by
      refine findRegion_eq_none rid' ?_
      simp only [objectProtoKeys, List.mem_cons, List.not_mem_nil, or_false] at hp'
      rcases hp' with rfl | rfl | rfl | rfl | rfl | rfl | rfl | rfl | rfl | rfl | rfl | rfl <;>
        decide
    exact handleRequest_proto_500 env' ⟨some a', some rid', d'⟩ rid'
      (by rcases ha' with rfl | rfl | rfl <;> simp) rfl hnone hp'

/-- C4 witness: a concrete unknown id gets a 400, and every inherited
`Object.prototype` name gets a 500, on concrete requests. -/
theorem regions_table_witness :
    REGIONS.length = 8
  ∧ (∀ (env' : Env) (rid' : Option String) (d' : Option Int),
      handleRequest env' (.ok ⟨some "list-regions", rid', d'⟩) =
        { status := 200,
          body := .regionsList
            [ ("fagaras", "Făgăraș", ⟨24.5, 45.5, 25.5, 46.0⟩)
            , ("iasi", "Iași", ⟨27.5, 47.0, 27.8, 47.3⟩)
            , ("timisoara", "Timișoara", ⟨21.1, 45.6, 21.4, 45.9⟩)
            , ("craiova", "Craiova", ⟨23.7, 44.2, 24.0, 44.5⟩)
            , ("constanta", "Constanța", ⟨28.5, 44.1, 28.8, 44.4⟩)
            , ("baia_mare", "Baia Mare", ⟨23.4, 47.5, 23.7, 47.8⟩)
            , ("bucuresti", "București", ⟨25.9, 44.3, 26.2, 44.6⟩)
            , ("cluj", "Cluj", ⟨23.5, 46.7, 23.8, 47.0⟩) ] })
  ∧ handleRequest env0 (.ok ⟨some "analyze", some "nowhere", none⟩) =
      { status := 400, body := .error "Unknown region" }
  ∧ (∀ (env' : Env) (d' : Option Int) (a' rid' : String),
      (a' = "analyze" ∨ a' = "gee" ∨ a' = "fires") → rid' ∈ objectProtoKeys →
      handleRequest env' (.ok ⟨some a', some rid', d'⟩) =
        { status := 500, body := .error bboxDestructureMsg }) :=
  regions_table env0 none "nowhere" "analyze" (Or.inl rfl) (by decide) (by decide)

/-- C4 counterexample: `toString` is not among the 8 known region ids, yet
`analyze`, `gee` and `fires` answer 500 (not the claimed 400): the inherited
`Object.prototype.toString` is truthy, so the 400 check is bypassed and the
undefined bbox throws in the callees. -/
theorem regions_proto_counterexample :
    "toString" ∉ ["fagaras", "iasi", "timisoara", "craiova", "constanta",
                  "baia_mare", "bucuresti", "cluj"]
  ∧ handleRequest env0 (.ok ⟨some "analyze", some "toString", none⟩) =
      { status := 500, body := .error bboxDestructureMsg }
  ∧ handleRequest env0 (.ok ⟨some "gee", some "toString", none⟩) =
      { status := 500, body := .error bboxDestructureMsg }
  ∧ handleRequest env0 (.ok ⟨some "fires", some "toString", none⟩) =
      { status := 500, body := .error bboxDestructureMsg }
  ∧ (handleRequest env0 (.ok ⟨some "analyze", some "toString", none⟩)).status ≠ 400 :=
  ⟨by decide, by with_unfolding_all decide, by with_unfolding_all decide,
   by with_unfolding_all decide, by with_unfolding_all decide⟩

/-- C5: on `analyze`, `gee` and `fires` a missing regionId yields a 400 with
body `regionId is required`; an unrecognized action yields a 400 with body
`Invalid action`; and a request whose handling throws yields a 500 whose body
carries the error message. -/
theorem dispatcher_error_paths :
    (∀ (env : Env) (d : Option Int) (a : String),
      (a = "analyze" ∨ a = "gee" ∨ a = "fires") →
      handleRequest env (.ok ⟨some a, none, d⟩) =
        { status := 400, body := .error "regionId is required" })
  ∧ (∀ (env : Env) (p : ReqParams),
      p.action ≠ some "list-regions" → p.action ≠ some "analyze" →
      p.action ≠ some "gee" → p.action ≠ some "fires" →
      handleRequest env (.ok p) = { status := 400, body := .error "Invalid action" })
  ∧ (∀ (env : Env) (msg : String),
      handleRequest env (.error msg) = { status := 500, body := .error msg }) := by
  refine ⟨fun env d a ha => ?_, fun env p h1 h2 h3 h4 => ?_, fun env msg => rfl⟩
  · rcases ha with rfl | rfl | rfl <;> simp [handleRequest]
  · simp [handleRequest, h1, h2, h3, h4]

/-- C5 witness: the three error paths at concrete requests. -/
theorem dispatcher_error_paths_witness :
    handleRequest env0 (.ok ⟨some "analyze", none, none⟩) =
      { status := 400, body := .error "regionId is required" }
  ∧ handleRequest env0 (.ok ⟨some "bogus", some "fagaras", none⟩) =
      { status := 400, body := .error "Invalid action" }
  ∧ handleRequest env0 (.error "boom") = { status := 500, body := .error "boom" } :=
  ⟨dispatcher_error_paths.1 env0 none "analyze" (Or.inl rfl),
   dispatcher_error_paths.2.1 env0 ⟨some "bogus", some "fagaras", none⟩
     (by decide) (by decide) (by decide) (by decide),
   dispatcher_error_paths.2.2 env0 "boom"⟩

/-- C6: `getGEEAccessToken` returns `null` (never throws) on missing
configuration, a malformed service-account key, a non-2xx token response or
a thrown exchange; and an `analyze` request whose token acquisition failed
still answers 200 with the fire hotspots and indicators. -/
theorem gee_token_failure_safe (cfg : GEEKeyConfig) (tf : TokenFetch) (s : Nat)
    (env : Env) (p : ReqParams) (rid : String) (region : Region)
    (ha : p.action = some "analyze") (hr : p.regionId = some rid)
    (hf : findRegion rid = some region)
    (htok : getGEEAccessToken env.geeCfg env.tokenFetch = none) :
    getGEEAccessToken .missing tf = none
  ∧ getGEEAccessToken .malformed tf = none
  ∧ getGEEAccessToken cfg (.notOk s) = none
  ∧ getGEEAccessToken cfg .threw = none
  ∧ (handleRequest env (.ok p)).status = 200
  ∧ (handleRequest env (.ok p)).body =
      .analyze rid region.name region.bbox
        (calculateHazardIndicators
          (some (envGEEAnalysis env region.bbox (geeDaysOf p.daysBack)))
          (envFireHotspots env region.bbox (firmsDaysOf p.daysBack)))
        (envGEEAnalysis env region.bbox (geeDaysOf p.daysBack))
        ((envFireHotspots env region.bbox (firmsDaysOf p.daysBack)).take 20) := by
  have heq := handleRequest_analyze_eq env p rid region ha hr hf
  refine ⟨rfl, rfl, ?_, ?_, by rw [heq], by rw [heq]⟩
  · cases cfg <;> rfl
  · cases cfg <;> rfl

/-- C6 witness: concrete `analyze` request on an environment with no GEE
credentials. -/
theorem gee_token_failure_safe_witness :
    getGEEAccessToken .missing .threw = none
  ∧ getGEEAccessToken .malformed .threw = none
  ∧ getGEEAccessToken .missing (.notOk 401) = none
  ∧ getGEEAccessToken .missing .threw = none
  ∧ (handleRequest env0 (.ok ⟨some "analyze", some "fagaras", none⟩)).status = 200
  ∧ (handleRequest env0 (.ok ⟨some "analyze", some "fagaras", none⟩)).body =
      .analyze "fagaras" "Făgăraș" ⟨24.5, 45.5, 25.5, 46.0⟩
        (calculateHazardIndicators
          (some (envGEEAnalysis env0 ⟨24.5, 45.5, 25.5, 46.0⟩ 30))
          (envFireHotspots env0 ⟨24.5, 45.5, 25.5, 46.0⟩ 3))
        (envGEEAnalysis env0 ⟨24.5, 45.5, 25.5, 46.0⟩ 30)
        ((envFireHotspots env0 ⟨24.5, 45.5, 25.5, 46.0⟩ 3).take 20) :=
  gee_token_failure_safe .missing .threw 401 env0
    ⟨some "analyze", some "fagaras", none⟩ "fagaras"
    { bbox := ⟨24.5, 45.5, 25.5, 46.0⟩, name := "Făgăraș" }
    rfl rfl rfl rfl

/-- C7: `getFireHotspots` returns the empty list whenever the FIRMS response
is non-2xx, the fetch throws, or the body trims to fewer than two lines; the
function is total, so none of these paths raises. -/
theorem getFireHotspots_failure_empty (hasKey : Bool) (bbox : BBox)
    (outcome : FetchOutcome)
    (h : outcome = .threw ∨ (∃ s, outcome = .notOk s) ∨
         (∃ body, outcome = .ok body ∧ (jsSplit '\n' (jsTrim body)).length < 2)) :
    getFireHotspots hasKey bbox outcome = [] := by
  rcases h with rfl | ⟨s, rfl⟩ | ⟨body, rfl, hlen⟩
  · rfl
  · rfl
  · simp [getFireHotspots, if_pos hlen]

/-- C7 witness: empty body, thrown fetch and a 503 response all give `[]`. -/
theorem getFireHotspots_failure_empty_witness :
    getFireHotspots true ⟨24.5, 45.5, 25.5, 46.0⟩ (.ok "") = []
  ∧ getFireHotspots false ⟨24.5, 45.5, 25.5, 46.0⟩ .threw = []
  ∧ getFireHotspots false ⟨24.5, 45.5, 25.5, 46.0⟩ (.notOk 503) = [] :=
  ⟨getFireHotspots_failure_empty true ⟨24.5, 45.5, 25.5, 46.0⟩ (.ok "")
     (Or.inr (Or.inr ⟨"", rfl, by decide⟩)),
   getFireHotspots_failure_empty false ⟨24.5, 45.5, 25.5, 46.0⟩ .threw (Or.inl rfl),
   getFireHotspots_failure_empty false ⟨24.5, 45.5, 25.5, 46.0⟩ (.notOk 503)
     (Or.inr (Or.inl ⟨503, rfl⟩))⟩

/-- C9: the `analyze` and `fires` actions invoke the FIRMS fetch with
`min(daysBack, 10)` for a truthy daysBack and `3` when it is absent or `0`,
so the FIRMS window never exceeds 10 days, while the GEE analysis of the same
`analyze` request is invoked with `daysBack` (default 30) uncapped. -/
theorem firms_window_capped :
    (∀ d : Int, d ≠ 0 → firmsDaysOf (some d) = min d 10)
  ∧ firmsDaysOf none = 3
  ∧ firmsDaysOf (some 0) = 3
  ∧ (∀ d : Option Int, firmsDaysOf d ≤ 10)
  ∧ (∀ d : Int, d ≠ 0 → geeDaysOf (some d) = d)
  ∧ geeDaysOf none = 30
  ∧ geeDaysOf (some 0) = 30
  ∧ geeDaysOf (some 50) = 50
  ∧ firmsDaysOf (some 50) = 10
  ∧ (∀ (env : Env) (p : ReqParams) (rid : String) (region : Region),
      p.action = some "analyze" → p.regionId = some rid →
      findRegion rid = some region →
      handleRequest env (.ok p) =
        { status := 200,
          body := .analyze rid region.name region.bbox
            (calculateHazardIndicators
              (some (envGEEAnalysis env region.bbox (geeDaysOf p.daysBack)))
              (envFireHotspots env region.bbox (firmsDaysOf p.daysBack)))
            (envGEEAnalysis env region.bbox (geeDaysOf p.daysBack))
            ((envFireHotspots env region.bbox (firmsDaysOf p.daysBack)).take 20) })
  ∧ (∀ (env : Env) (p : ReqParams) (rid : String) (region : Region),
      p.action = some "fires" → p.regionId = some rid →
      findRegion rid = some region →
      handleRequest env (.ok p) =
        { status := 200,
          body := .fires rid region.name region.bbox
            (calculateFireRisk (envFireHotspots env region.bbox (firmsDaysOf p.daysBack)))
            (envFireHotspots env region.bbox (firmsDaysOf p.daysBack)) }) := by
  refine ⟨?_, rfl, rfl, ?_, ?_, rfl, rfl, rfl, rfl,
    handleRequest_analyze_eq, handleRequest_fires_eq⟩
  · intro d hd
    cases d with
    | ofNat n => cases n with
      | zero => exact absurd rfl hd
      | succ m => rfl
    | negSucc n => rfl
  · intro d
    rcases d with _ | d
    · decide
    · exact min_le_right _ _
  · intro d hd
    cases d with
    | ofNat n => cases n with
      | zero => exact absurd rfl hd
      | succ m => rfl
    | negSucc n => rfl

/-- C9 witness: a `fires` request with `daysBack = 50` fetches FIRMS with a
capped window of 10 days. -/
theorem firms_window_capped_witness :
    firmsDaysOf (some 50) = min 50 10
  ∧ firmsDaysOf (some 50) ≤ 10
  ∧ geeDaysOf (some 50) = 50
  ∧ handleRequest env0 (.ok ⟨some "fires", some "cluj", some 50⟩) =
      { status := 200,
        body := .fires "cluj" "Cluj" ⟨23.5, 46.7, 23.8, 47.0⟩
          (calculateFireRisk (envFireHotspots env0 ⟨23.5, 46.7, 23.8, 47.0⟩ 10))
          (envFireHotspots env0 ⟨23.5, 46.7, 23.8, 47.0⟩ 10) } :=
  ⟨firms_window_capped.1 50 (by decide),
   firms_window_capped.2.2.2.1 (some 50),
   firms_window_capped.2.2.2.2.2.2.2.1,
   firms_window_capped.2.2.2.2.2.2.2.2.2.2 env0
     ⟨some "fires", some "cluj", some 50⟩ "cluj"
     { bbox := ⟨23.5, 46.7, 23.8, 47.0⟩, name := "Cluj" } rfl rfl rfl⟩

/-- C10: the `analyze` response truncates the hotspot array to the first 20
elements while the `fires` response returns the full list; the risk figures
are computed from the full list (`activeHotspots` always equals its length),
so an `analyze` response over 21 hotspots reports more active hotspots than
it includes. -/
theorem analyze_truncates_fires_full :
    (∀ (hs : List FireHotspot), (calculateFireRisk hs).activeHotspots = hs.length)
  ∧ (∀ (g : Option GEEAnalysis) (hs : List FireHotspot),
      (calculateHazardIndicators g hs).fireData.activeHotspots = hs.length)
  ∧ (∀ (env : Env) (p : ReqParams) (rid : String) (region : Region),
      p.action = some "analyze" → p.regionId = some rid →
      findRegion rid = some region →
      handleRequest env (.ok p) =
        { status := 200,
          body := .analyze rid region.name region.bbox
            (calculateHazardIndicators
              (some (envGEEAnalysis env region.bbox (geeDaysOf p.daysBack)))
              (envFireHotspots env region.bbox (firmsDaysOf p.daysBack)))
            (envGEEAnalysis env region.bbox (geeDaysOf p.daysBack))
            ((envFireHotspots env region.bbox (firmsDaysOf p.daysBack)).take 20) })
  ∧ (∀ (env : Env) (p : ReqParams) (rid : String) (region : Region),
      p.action = some "fires" → p.regionId = some rid →
      findRegion rid = some region →
      handleRequest env (.ok p) =
        { status := 200,
          body := .fires rid region.name region.bbox
            (calculateFireRisk (envFireHotspots env region.bbox (firmsDaysOf p.daysBack)))
            (envFireHotspots env region.bbox (firmsDaysOf p.daysBack)) })
  ∧ (calculateHazardIndicators none (List.replicate 21 sampleHotspot)).fireData.activeHotspots >
      ((List.replicate 21 sampleHotspot).take 20).length := by
  have hact : ∀ hs : List FireHotspot, (calculateFireRisk hs).activeHotspots = hs.length := by
    intro hs
    rcases hs with _ | ⟨h, t⟩
    · rfl
    · simp [calculateFireRisk]
  refine ⟨hact, fun g hs => ?_, handleRequest_analyze_eq, handleRequest_fires_eq, ?_⟩
  · simpa [calculateHazardIndicators] using hact hs
  · have h21 := hact (List.replicate 21 sampleHotspot)
    simp only [calculateHazardIndicators]
    rw [h21]
    simp

/-- C10 witness: instantiation of the quantified parts at the empty list and
a concrete `analyze` request. -/
theorem analyze_truncates_fires_full_witness :
    (calculateFireRisk []).activeHotspots = ([] : List FireHotspot).length
  ∧ handleRequest env0 (.ok ⟨some "analyze", some "iasi", none⟩) =
      { status := 200,
        body := .analyze "iasi" "Iași" ⟨27.5, 47.0, 27.8, 47.3⟩
          (calculateHazardIndicators
            (some (envGEEAnalysis env0 ⟨27.5, 47.0, 27.8, 47.3⟩ 30))
            (envFireHotspots env0 ⟨27.5, 47.0, 27.8, 47.3⟩ 3))
          (envGEEAnalysis env0 ⟨27.5, 47.0, 27.8, 47.3⟩ 30)
          ((envFireHotspots env0 ⟨27.5, 47.0, 27.8, 47.3⟩ 3).take 20) } :=
  ⟨analyze_truncates_fires_full.1 [],
   analyze_truncates_fires_full.2.2.1 env0 ⟨some "analyze", some "iasi", none⟩
     "iasi" { bbox := ⟨27.5, 47.0, 27.8, 47.3⟩, name := "Iași" } rfl rfl rfl⟩

/-- C8: the numeric and categorical fields of the GEE analysis are computed
independently of the connectivity outcome; only `geeConnected` records it.
Two runs with the same bbox, daysBack, date and draws but arbitrary
different connectivity outcomes agree on every field but `geeConnected`. -/
theorem geeConnected_noninterference (bbox : BBox) (daysBack : Int) (month : Nat)
    (endStr : String) (r1 r2 r3 : Rat)
    (cfg cfg' : GEEKeyConfig) (tf tf' : TokenFetch) (af af' : AssetsFetch) :
    (getGEEAnalysis bbox daysBack cfg tf af month endStr r1 r2 r3).geeConnected =
      (((queryGEE cfg tf af).map Prod.fst).getD false)
  ∧ (getGEEAnalysis bbox daysBack cfg tf af month endStr r1 r2 r3).ndviMean =
      (getGEEAnalysis bbox daysBack cfg' tf' af' month endStr r1 r2 r3).ndviMean
  ∧ (getGEEAnalysis bbox daysBack cfg tf af month endStr r1 r2 r3).ndviMin =
      (getGEEAnalysis bbox daysBack cfg' tf' af' month endStr r1 r2 r3).ndviMin
  ∧ (getGEEAnalysis bbox daysBack cfg tf af month endStr r1 r2 r3).ndviMax =
      (getGEEAnalysis bbox daysBack cfg' tf' af' month endStr r1 r2 r3).ndviMax
  ∧ (getGEEAnalysis bbox daysBack cfg tf af month endStr r1 r2 r3).floodPercentage =
      (getGEEAnalysis bbox daysBack cfg' tf' af' month endStr r1 r2 r3).floodPercentage
  ∧ (getGEEAnalysis bbox daysBack cfg tf af month endStr r1 r2 r3).waterPercentage =
      (getGEEAnalysis bbox daysBack cfg' tf' af' month endStr r1 r2 r3).waterPercentage
  ∧ (getGEEAnalysis bbox daysBack cfg tf af month endStr r1 r2 r3).vegetationStress =
      (getGEEAnalysis bbox daysBack cfg' tf' af' month endStr r1 r2 r3).vegetationStress
  ∧ (getGEEAnalysis bbox daysBack cfg tf af month endStr r1 r2 r3).dataDate =
      (getGEEAnalysis bbox daysBack cfg' tf' af' month endStr r1 r2 r3).dataDate
  ∧ (getGEEAnalysis bbox daysBack cfg tf af month endStr r1 r2 r3).src =
      (getGEEAnalysis bbox daysBack cfg' tf' af' month endStr r1 r2 r3).src :=
  ⟨rfl, rfl, rfl, rfl, rfl, rfl, rfl, rfl, rfl⟩

/-! Rounding and seasonal lemmas for the NDVI estimator. -/

theorem round3_mono {a b : Rat} (h : a ≤ b) : round3 a ≤ round3 b := by
  have hf : (⌊a * 1000 + 1/2⌋ : Int) ≤ ⌊b * 1000 + 1/2⌋ := Int.floor_mono (by linarith)
  have hc : ((⌊a * 1000 + 1/2⌋ : Int) : Rat) ≤ ((⌊b * 1000 + 1/2⌋ : Int) : Rat) := by
    exact_mod_cast hf
  unfold round3 jsRound
  linarith

theorem getGEEAnalysis_ndvi_eq (bbox : BBox) (daysBack : Int) (cfg : GEEKeyConfig)
    (tf : TokenFetch) (af : AssetsFetch) (month : Nat) (endStr : String)
    (r1 r2 r3 : Rat) :
    (getGEEAnalysis bbox daysBack cfg tf af month endStr r1 r2 r3).ndviMean =
      round3 (ndviRawMean bbox month r1)
  ∧ (getGEEAnalysis bbox daysBack cfg tf af month endStr r1 r2 r3).ndviMin =
      round3 (max (-1) (ndviRawMean bbox month r1 - 0.2))
  ∧ (getGEEAnalysis bbox daysBack cfg tf af month endStr r1 r2 r3).ndviMax =
      round3 (min 1 (ndviRawMean bbox month r1 + 0.2)) :=
  ⟨rfl, rfl, rfl⟩

theorem ndviRawMean_bounds (bbox : BBox) (month : Nat) (r : Rat)
    (h1 : 0 ≤ r) (h2 : r < 1) :
    (0.10 : Rat) ≤ ndviRawMean bbox month r ∧ ndviRawMean bbox month r < 0.70 := by
  have ha : (0 : Rat) ≤ r * 0.15 := mul_nonneg h1 (by norm_num)
  have hb : r * 0.15 < 0.15 := by nlinarith
  unfold ndviRawMean ndviSeasonBase
  split_ifs <;> constructor <;> linarith

theorem ndviRawMean_june (bbox : BBox) (r : Rat) :
    ndviRawMean bbox 5 r =
      (0.55 + r * 0.15) -
        (if (bbox.minLat + bbox.maxLat) / 2 > 46.5 then (0.05 : Rat) else 0) := by
  unfold ndviRawMean ndviSeasonBase
  norm_num
  split_ifs <;> ring

theorem ndviRawMean_january (bbox : BBox) (r : Rat) :
    ndviRawMean bbox 0 r =
      (0.15 + r * 0.15) -
        (if (bbox.minLat + bbox.maxLat) / 2 > 46.5 then (0.05 : Rat) else 0) := by
  unfold ndviRawMean ndviSeasonBase
  norm_num
  split_ifs <;> ring

/-- C3: for every bounding box, daysBack, month and draws in [0,1), the
estimated NDVI mean, min and max lie in [-1,1] with min ≤ mean ≤ max; a June
(month 5) mean is drawn from the summer base `0.55 + r·0.15` and a January
(month 0) mean from the winter base `0.15 + r·0.15`, both reduced by 0.05
when the bbox center latitude exceeds 46.5; hence every June mean strictly
exceeds every January mean. -/
theorem gee_seasonal_ndvi
    (bbox bbox' : BBox) (daysBack daysBack' : Int)
    (cfg cfg' : GEEKeyConfig) (tf tf' : TokenFetch) (af af' : AssetsFetch)
    (endStr endStr' : String) (month : Nat) (r1 r2 r3 r1' r2' r3' : Rat)
    (h1 : 0 ≤ r1) (h2 : r1 < 1) (h3 : 0 ≤ r2) (h4 : r2 < 1)
    (h5 : 0 ≤ r3) (h6 : r3 < 1) (h1' : 0 ≤ r1') (h2' : r1' < 1) :
    (-1 ≤ (getGEEAnalysis bbox daysBack cfg tf af month endStr r1 r2 r3).ndviMean
      ∧ (getGEEAnalysis bbox daysBack cfg tf af month endStr r1 r2 r3).ndviMean ≤ 1
      ∧ -1 ≤ (getGEEAnalysis bbox daysBack cfg tf af month endStr r1 r2 r3).ndviMin
      ∧ (getGEEAnalysis bbox daysBack cfg tf af month endStr r1 r2 r3).ndviMin ≤ 1
      ∧ -1 ≤ (getGEEAnalysis bbox daysBack cfg tf af month endStr r1 r2 r3).ndviMax
      ∧ (getGEEAnalysis bbox daysBack cfg tf af month endStr r1 r2 r3).ndviMax ≤ 1
      ∧ (getGEEAnalysis bbox daysBack cfg tf af month endStr r1 r2 r3).ndviMin ≤
          (getGEEAnalysis bbox daysBack cfg tf af month endStr r1 r2 r3).ndviMean
      ∧ (getGEEAnalysis bbox daysBack cfg tf af month endStr r1 r2 r3).ndviMean ≤
          (getGEEAnalysis bbox daysBack cfg tf af month endStr r1 r2 r3).ndviMax)
  ∧ (getGEEAnalysis bbox daysBack cfg tf af 5 endStr r1 r2 r3).ndviMean =
      round3 ((0.55 + r1 * 0.15) -
        (if (bbox.minLat + bbox.maxLat) / 2 > 46.5 then (0.05 : Rat) else 0))
  ∧ (getGEEAnalysis bbox' daysBack' cfg' tf' af' 0 endStr' r1' r2' r3').ndviMean =
      round3 ((0.15 + r1' * 0.15) -
        (if (bbox'.minLat + bbox'.maxLat) / 2 > 46.5 then (0.05 : Rat) else 0))
  ∧ (getGEEAnalysis bbox daysBack cfg tf af 5 endStr r1 r2 r3).ndviMean >
      (getGEEAnalysis bbox' daysBack' cfg' tf' af' 0 endStr' r1' r2' r3').ndviMean := by
  obtain ⟨em, emin, emax⟩ :=
    getGEEAnalysis_ndvi_eq bbox daysBack cfg tf af month endStr r1 r2 r3
  obtain ⟨hm0, hm1⟩ := ndviRawMean_bounds bbox month r1 h1 h2
  have c_neg1 : round3 (-1 : Rat) = -1 := by with_unfolding_all decide
  have c_1 : round3 (1 : Rat) = 1 := by with_unfolding_all decide
  have c_05 : round3 (0.5 : Rat) = 0.5 := by with_unfolding_all decide
  have c_07 : round3 (0.7 : Rat) = 0.7 := by with_unfolding_all decide
  have c_03 : round3 (0.3 : Rat) = 0.3 := by with_unfolding_all decide
  have ha : (0 : Rat) ≤ r1 * 0.15 := mul_nonneg h1 (by norm_num)
  have ha' : (0 : Rat) ≤ r1' * 0.15 := mul_nonneg h1' (by norm_num)
  have hb' : r1' * 0.15 < 0.15 := by nlinarith
  set m := ndviRawMean bbox month r1 with hmdef
  have eJ :=
    (getGEEAnalysis_ndvi_eq bbox daysBack cfg tf af 5 endStr r1 r2 r3).1
  have eW :=
    (getGEEAnalysis_ndvi_eq bbox' daysBack' cfg' tf' af' 0 endStr' r1' r2' r3').1
  have hJlo : (0.5 : Rat) ≤ ndviRawMean bbox 5 r1 := by
    rw [ndviRawMean_june]
    split_ifs <;> linarith
  have hWhi : ndviRawMean bbox' 0 r1' ≤ (0.3 : Rat) := by
    rw [ndviRawMean_january]
    split_ifs <;> linarith
  have hJround : (0.5 : Rat) ≤ round3 (ndviRawMean bbox 5 r1) := by
    have := round3_mono hJlo
    rw [c_05] at this
    exact this
  have hWround : round3 (ndviRawMean bbox' 0 r1') ≤ (0.3 : Rat) := by
    have := round3_mono hWhi
    rw [c_03] at this
    exact this
  refine ⟨⟨?_, ?_, ?_, ?_, ?_, ?_, ?_, ?_⟩, ?_, ?_, ?_⟩
  · rw [em]
    have := round3_mono (show (-1 : Rat) ≤ m by linarith)
    rw [c_neg1] at this
    exact this
  · rw [em]
    have := round3_mono (show m ≤ (0.7 : Rat) by linarith)
    rw [c_07] at this
    linarith
  · rw [emin]
    have := round3_mono (show (-1 : Rat) ≤ max (-1) (m - 0.2) from le_max_left _ _)
    rw [c_neg1] at this
    exact this
  · rw [emin]
    have := round3_mono (show max (-1) (m - 0.2) ≤ (0.5 : Rat) from
      max_le (by norm_num) (by linarith))
    rw [c_05] at this
    linarith
  · rw [emax]
    have := round3_mono (show (0.3 : Rat) ≤ min 1 (m + 0.2) from
      le_min (by norm_num) (by linarith))
    rw [c_03] at this
    linarith
  · rw [emax]
    have := round3_mono (show min 1 (m + 0.2) ≤ (1 : Rat) from min_le_left _ _)
    rw [c_1] at this
    exact this
  · rw [emin, em]
    exact round3_mono (max_le (by linarith) (by linarith))
  · rw [em, emax]
    exact round3_mono (le_min (by linarith) (by linarith))
  · rw [eJ, ndviRawMean_june]
  · rw [eW, ndviRawMean_january]
  · rw [eJ, eW]
    linarith

/-- C3 witness: concrete bboxes, months and draws, with a lowland June mean
exceeding a mountain January mean. -/
theorem gee_seasonal_ndvi_witness :
    -1 ≤ (getGEEAnalysis ⟨24.5, 45.5, 25.5, 46.0⟩ 30 .missing .threw .threw 0
        "2025-01-15" (1/2) (1/2) (1/2)).ndviMean
  ∧ (getGEEAnalysis ⟨24.5, 45.5, 25.5, 46.0⟩ 30 .missing .threw .threw 5
        "2025-06-15" (1/2) (1/2) (1/2)).ndviMean >
      (getGEEAnalysis ⟨23.4, 47.5, 23.7, 47.8⟩ 30 .missing .threw .threw 0
        "2025-01-15" (1/4) (1/4) (1/4)).ndviMean :=
  have h := gee_seasonal_ndvi ⟨24.5, 45.5, 25.5, 46.0⟩ ⟨23.4, 47.5, 23.7, 47.8⟩
    30 30 .missing .missing .threw .threw .threw .threw "2025-01-15" "2025-01-15"
    0 (1/2) (1/2) (1/2) (1/4) (1/4) (1/4)
    (by norm_num) (by norm_num) (by norm_num) (by norm_num)
    (by norm_num) (by norm_num) (by norm_num) (by norm_num)
  ⟨h.1.1, by
    have h2 := gee_seasonal_ndvi ⟨24.5, 45.5, 25.5, 46.0⟩ ⟨23.4, 47.5, 23.7, 47.8⟩
      30 30 .missing .missing .threw .threw .threw .threw "2025-06-15" "2025-01-15"
      0 (1/2) (1/2) (1/2) (1/4) (1/4) (1/4)
      (by norm_num) (by norm_num) (by norm_num) (by norm_num)
      (by norm_num) (by norm_num) (by norm_num) (by norm_num)
    exact h2.2.2.2⟩

/-! Lemmas relating header-based column lookup to an association-list view. -/

theorem jsIndexOf_ge (xs : List String) (x : String) : -1 ≤ jsIndexOf xs x := by
  induction xs with
  | nil => simp [jsIndexOf]
  | cons y ys ih =>
    simp only [jsIndexOf]
    split
    · norm_num
    · split
      · norm_num
      · omega

theorem jsIndexOf_eq_neg_one_iff (xs : List String) (x : String) :
    jsIndexOf xs x = -1 ↔ x ∉ xs := by
  induction xs with
  | nil => simp [jsIndexOf]
  | cons y ys ih =>
    have hge := jsIndexOf_ge ys x
    by_cases hy : y = x
    · simp [jsIndexOf, hy]
    · rcases eq_or_ne (jsIndexOf ys x) (-1) with heq | hne
      · simp [jsIndexOf, hy, heq, ih.mp heq, Ne.symm hy]
      · have hmem : x ∈ ys := by
          by_contra hmem
          exact hne (ih.mpr hmem)
        simp only [jsIndexOf, if_neg hy, if_neg hne, List.mem_cons]
        constructor
        · intro habs
          omega
        · intro habs
          exact absurd (Or.inr hmem) habs

theorem jsAt_map_snd (pairs : List (String × String)) (name : String) :
    jsAt (pairs.map Prod.snd) (jsIndexOf (pairs.map Prod.fst) name) =
      lookupPair pairs name := by
  induction pairs with
  | nil => rfl
  | cons hd tl ih =>
    rcases hd with ⟨k, v⟩
    by_cases hk : k = name
    · simp [jsIndexOf, jsAt, lookupPair, hk]
    · have hge := jsIndexOf_ge (tl.map Prod.fst) name
      simp only [List.map_cons, jsIndexOf, lookupPair, if_neg hk]
      rcases eq_or_ne (jsIndexOf (tl.map Prod.fst) name) (-1) with heq | hne
      · rw [← ih]
        simp [jsAt, heq]
      · rw [← ih, if_neg hne]
        simp only [jsAt]
        rw [if_neg (by omega), if_neg (by omega)]
        have htn : (jsIndexOf (tl.map Prod.fst) name + 1).toNat =
            (jsIndexOf (tl.map Prod.fst) name).toNat + 1 := by omega
        rw [htn]
        simp

theorem lookupPair_perm {l₁ l₂ : List (String × String)} (h : l₁.Perm l₂) :
    ∀ name : String, (l₁.map Prod.fst).Nodup →
      lookupPair l₁ name = lookupPair l₂ name := by
  induction h with
  | nil =>
    intro name _
    rfl
  | cons x hp ih =>
    intro name hnd
    rcases x with ⟨k, v⟩
    simp only [lookupPair]
    by_cases hk : k = name
    · simp [hk]
    · simp only [if_neg hk]
      simp only [List.map_cons, List.nodup_cons] at hnd
      exact ih name hnd.2
  | swap x y t =>
    intro name hnd
    rcases x with ⟨k₁, v₁⟩
    rcases y with ⟨k₂, v₂⟩
    simp only [List.map_cons, List.nodup_cons, List.mem_cons] at hnd
    simp only [lookupPair]
    by_cases e2 : k₂ = name <;> by_cases e1 : k₁ = name
    · exfalso
      exact hnd.1 (Or.inl (e2.trans e1.symm))
    · simp [e1, e2]
    · simp [e1, e2]
    · simp [e1, e2]
  | trans h₁ h₂ ih₁ ih₂ =>
    intro name hnd
    rw [ih₁ name hnd, ih₂ name (((h₁.map Prod.fst).nodup_iff).mp hnd)]

/-- C2 amended: row parsing depends on header content, not column position
(permuting header/value columns with distinct header names leaves the parsed
record unchanged, including the `bright_ti4`/`brightness` alternative); a
`brightness` or `frp` cell that fails to parse defaults to 0; but `latitude`
and `longitude` are stored as the raw parse result, with no fallback to 0. -/
theorem csv_header_mapping (pairs pairs' : List (String × String))
    (hperm : pairs.Perm pairs') (hnd : (pairs.map Prod.fst).Nodup)
    (cols : CsvColumns) (values : List String) :
    parseHotspotRow (hotspotColumns (pairs.map Prod.fst)) (pairs.map Prod.snd) =
      parseHotspotRow (hotspotColumns (pairs'.map Prod.fst)) (pairs'.map Prod.snd)
  ∧ ((jsAt values cols.brightIdx).bind parseFloat = none →
      (parseHotspotRow cols values).brightness = 0)
  ∧ ((jsAt values cols.frpIdx).bind parseFloat = none →
      (parseHotspotRow cols values).frp = 0)
  ∧ (parseHotspotRow cols values).latitude = (jsAt values cols.latIdx).bind parseFloat
  ∧ (parseHotspotRow cols values).longitude = (jsAt values cols.lonIdx).bind parseFloat := by
  refine ⟨?_, ?_, ?_, rfl, rfl⟩
  · have hnd' : (pairs'.map Prod.fst).Nodup := ((hperm.map Prod.fst).nodup_iff).mp hnd
    have key : ∀ name : String,
        jsAt (pairs.map Prod.snd) (jsIndexOf (pairs.map Prod.fst) name) =
        jsAt (pairs'.map Prod.snd) (jsIndexOf (pairs'.map Prod.fst) name) := by
      intro name
      rw [jsAt_map_snd, jsAt_map_snd, lookupPair_perm hperm name hnd]
    have hmem : ("bright_ti4" ∈ pairs.map Prod.fst) ↔
        ("bright_ti4" ∈ pairs'.map Prod.fst) := (hperm.map Prod.fst).mem_iff
    have hbright :
        jsAt (pairs.map Prod.snd)
          (if jsIndexOf (pairs.map Prod.fst) "bright_ti4" ≠ -1
            then jsIndexOf (pairs.map Prod.fst) "bright_ti4"
            else jsIndexOf (pairs.map Prod.fst) "brightness") =
        jsAt (pairs'.map Prod.snd)
          (if jsIndexOf (pairs'.map Prod.fst) "bright_ti4" ≠ -1
            then jsIndexOf (pairs'.map Prod.fst) "bright_ti4"
            else jsIndexOf (pairs'.map Prod.fst) "brightness") := by
      by_cases hb : "bright_ti4" ∈ pairs.map Prod.fst
      · rw [if_pos (by simp [Ne, jsIndexOf_eq_neg_one_iff, hb]),
            if_pos (by simp [Ne, jsIndexOf_eq_neg_one_iff, hmem.mp hb])]
        exact key "bright_ti4"
      · rw [if_neg (fun hn => hn ((jsIndexOf_eq_neg_one_iff _ _).mpr hb)),
            if_neg (fun hn => hn ((jsIndexOf_eq_neg_one_iff _ _).mpr
              (fun hc => hb (hmem.mpr hc))))]
        exact key "brightness"
    simp only [parseHotspotRow, hotspotColumns]
    rw [key "latitude", key "longitude", hbright, key "confidence",
        key "acq_date", key "acq_time", key "satellite", key "frp"]
  · intro h
    simp [parseHotspotRow, h]
  · intro h
    simp [parseHotspotRow, h]

/-- C2 witness: a concrete two-column permutation, with a column set whose
brightness and frp cells fail to parse. -/
theorem csv_header_mapping_witness :
    parseHotspotRow (hotspotColumns ["latitude", "frp"]) ["45.7", "2.5"] =
      parseHotspotRow (hotspotColumns ["frp", "latitude"]) ["2.5", "45.7"]
  ∧ ((jsAt ["xx", "yy"] (hotspotColumns ["brightness", "frp"]).brightIdx).bind parseFloat = none →
      (parseHotspotRow (hotspotColumns ["brightness", "frp"]) ["xx", "yy"]).brightness = 0)
  ∧ ((jsAt ["xx", "yy"] (hotspotColumns ["brightness", "frp"]).frpIdx).bind parseFloat = none →
      (parseHotspotRow (hotspotColumns ["brightness", "frp"]) ["xx", "yy"]).frp = 0)
  ∧ (parseHotspotRow (hotspotColumns ["brightness", "frp"]) ["xx", "yy"]).latitude =
      (jsAt ["xx", "yy"] (hotspotColumns ["brightness", "frp"]).latIdx).bind parseFloat
  ∧ (parseHotspotRow (hotspotColumns ["brightness", "frp"]) ["xx", "yy"]).longitude =
      (jsAt ["xx", "yy"] (hotspotColumns ["brightness", "frp"]).lonIdx).bind parseFloat :=
  csv_header_mapping [("latitude", "45.7"), ("frp", "2.5")]
    [("frp", "2.5"), ("latitude", "45.7")]
    (List.Perm.swap _ _ _) (by decide)
    (hotspotColumns ["brightness", "frp"]) ["xx", "yy"]

/-- C2 counterexample: in the produced record for a row whose latitude cell
fails to parse, the latitude is `NaN` (modelled `none`), not 0 — the claim
that every unparseable numeric field defaults to 0 is false. -/
theorem csv_latitude_nan_counterexample :
    parseFloat "xx" = none
  ∧ getFireHotspots true ⟨24.5, 45.5, 25.5, 46.0⟩ (.ok badLatCsv) =
      [{ latitude := none, longitude := some 25, brightness := 300,
         confidence := .str "high", acq_date := "2025-01-01", acq_time := "0130",
         satellite := "N", frp := 11/2 }]
  ∧ (getFireHotspots true ⟨24.5, 45.5, 25.5, 46.0⟩ (.ok badLatCsv)).map
      (fun h => h.latitude) ≠ [some 0] :=
  ⟨by with_unfolding_all decide, by with_unfolding_all decide,
   by with_unfolding_all decide⟩

end SatelliteData
